import Mathlib

/-!
Verification development for the `ai_chatbot_backend` repository.

We give a shallow embedding, in Lean, of the core logic of the backend:

* `MultiProviderAIService.chat_completion` (src/app/utils.py, lines 181-216):
  assembly of the ordered provider preference list from the configured
  credentials and the sequential fallback loop over it;
* `track_usage` (src/app/utils.py, lines 265-296): the per-(user, date)
  usage ledger with its try/commit/rollback discipline;
* `generate_chat_title` (src/app/utils.py, lines 299-321): the pure title
  generator, embedded at the level of character lists with Python string
  semantics (ASCII case mapping, `str.strip`/`str.split` whitespace rules);
* the message-assembly and persistence-ordering fragments of `send_message`
  (src/app/routes.py, lines 268-326).

Machine integers are modelled as `Int` (Python integers are unbounded, so no
wrap-around is modelled); fallible operations return `Except`; the database
is modelled as explicit state passed through the functions that touch it.
-/

/-! ## Provider registry and fallback orchestrator (src/app/utils.py) -/

/-- The result of one successful provider call, mirroring the Python tuple
`(content, prompt_tokens, completion_tokens)` returned by each
`chat_with_*` method. -/
structure AIResult where
  content : String
  input_tokens : Int
  output_tokens : Int
deriving DecidableEq, Repr

/-- The names of the four providers that `chat_completion` can put on its
preference list (src/app/utils.py lines 188-198).  The Anthropic key is read
in `__init__` but never used by `chat_completion`, so it yields no provider. -/
inductive ProviderName where
  | openRouter
  | groq
  | togetherAI
  | openAI
deriving DecidableEq, Repr

/-- The environment-derived configuration read in
`MultiProviderAIService.__init__` (src/app/utils.py lines 12-31), restricted
to the fields `chat_completion` consults.  `force_openai` models
`os.getenv("FORCE_OPENAI") == "true"` (line 197). -/
structure ServiceConfig where
  openai_api_key : Option String
  openrouter_key : Option String
  anthropic_key : Option String
  groq_key : Option String
  together_key : Option String
  use_proxy : Bool
  force_openai : Bool
deriving DecidableEq, Repr

/-- The ordered provider preference list assembled at the top of
`chat_completion` (src/app/utils.py lines 185-198): OpenRouter, then Groq,
then Together AI, each when its key is set; direct OpenAI last, only when the
OpenAI key is set and additionally `use_proxy` or `FORCE_OPENAI` holds. -/
def providersOf (c : ServiceConfig) : List ProviderName :=
  (if c.openrouter_key.isSome then [ProviderName.openRouter] else []) ++
  (if c.groq_key.isSome then [ProviderName.groq] else []) ++
  (if c.together_key.isSome then [ProviderName.togetherAI] else []) ++
  (if c.openai_api_key.isSome && (c.use_proxy || c.force_openai) then
    [ProviderName.openAI] else [])

/-- The two terminal failures `chat_completion` can raise: the distinct
no-providers-configured error (line 201) and the all-providers-failed error
(line 216). -/
inductive ChatError where
  | noProvidersConfigured
  | allProvidersFailed
deriving DecidableEq, Repr

/-- `true` exactly when an `Except` value is an error. -/
def isErr {ε α : Type} : Except ε α → Bool
  | Except.error _ => true
  | Except.ok _ => false

/-- The fallback loop of `chat_completion` (src/app/utils.py lines 204-216).
`attempt p` is the outcome of calling provider `p` once (an exception or a
result).  Returns the overall outcome together with the list of providers
actually attempted, in the order they were attempted. -/
def tryProviders (attempt : ProviderName → Except String AIResult) :
    List ProviderName → Except ChatError AIResult × List ProviderName
  | [] => (Except.error ChatError.allProvidersFailed, [])
  | p :: ps =>
    match attempt p with
    | Except.ok r => (Except.ok r, [p])
    | Except.error _ =>
      let res := tryProviders attempt ps
      (res.1, p :: res.2)

/-- `MultiProviderAIService.chat_completion` (src/app/utils.py lines
181-216): assemble the preference list; if it is empty raise the distinct
no-providers error without attempting anything; otherwise run the fallback
loop.  The second component is the list of providers attempted. -/
def chat_completion (c : ServiceConfig)
    (attempt : ProviderName → Except String AIResult) :
    Except ChatError AIResult × List ProviderName :=
  let providers := providersOf c
  if providers.isEmpty then (Except.error ChatError.noProvidersConfigured, [])
  else tryProviders attempt providers

/-! ## Usage ledger (`track_usage`, src/app/utils.py lines 265-296) -/

/-- One row of the `usage` table (src/app/models.py lines 50-59), restricted
to the counter fields `track_usage` mutates.  The key (user id, date) is kept
outside the record, in the database model. -/
structure UsageRecord where
  input_tokens : Int
  output_tokens : Int
  total_tokens : Int
  message_count : Int
deriving DecidableEq, Repr

/-- A usage-table key: the user id together with the calendar date, the date
abstracted as a day number. -/
abbrev UsageKey := String × Nat

/-- The usage table, as a map from key to the row stored for it (at most one
row per (user, date), matching the lookup discipline of `track_usage`). -/
abbrev UsageDB := UsageKey → Option UsageRecord

/-- The in-place mutation / creation step of `track_usage`
(src/app/utils.py lines 275-289): if a row for the key exists, add both
deltas, add their sum to `total_tokens` and add 1 to `message_count`;
otherwise create a fresh row carrying the deltas, their sum, and
`message_count = 1`. -/
def applyUsage (existing : Option UsageRecord) (input_tokens output_tokens : Int) :
    UsageRecord :=
  match existing with
  | some u =>
    { input_tokens := u.input_tokens + input_tokens
      output_tokens := u.output_tokens + output_tokens
      total_tokens := u.total_tokens + (input_tokens + output_tokens)
      message_count := u.message_count + 1 }
  | none =>
    { input_tokens := input_tokens
      output_tokens := output_tokens
      total_tokens := input_tokens + output_tokens
      message_count := 1 }

/-- The body of the `try` block of `track_usage` (src/app/utils.py lines
267-292): look up the row for `(user_id, today)`, mutate or create it, and
commit.  `fail` models an exception anywhere before the commit completes
(storage unavailable, conflict); the commit itself is the storage layer's
atomic unit, so a failed run leaves no partial state to report. -/
def track_usage_body (db : UsageDB) (user_id : String) (today : Nat)
    (input_tokens output_tokens : Int) (fail : Bool) : Except String UsageDB :=
  if fail then Except.error "usage tracking error"
  else Except.ok (fun k =>
    if k = (user_id, today) then
      some (applyUsage (db (user_id, today)) input_tokens output_tokens)
    else db k)

/-- `track_usage` (src/app/utils.py lines 265-296): run the body; any
exception is caught, logged and answered with `db.rollback()`, which restores
the pre-call state.  The function is total — it never propagates a failure to
its caller. -/
def track_usage (db : UsageDB) (user_id : String) (today : Nat)
    (input_tokens output_tokens : Int) (fail : Bool) : UsageDB :=
  match track_usage_body db user_id today input_tokens output_tokens fail with
  | Except.ok db' => db'
  | Except.error _ => db

/-- The ledger invariant of the spec: `total_tokens` is the sum of
`input_tokens` and `output_tokens`. -/
def usageInv (u : UsageRecord) : Prop :=
  u.total_tokens = u.input_tokens + u.output_tokens

/-! ## Title generator (`generate_chat_title`, src/app/utils.py lines 299-321)

Python string semantics are embedded at the level of character lists:
`str.strip()` / `str.split()` split on whitespace characters, `str.lower()` /
`str.upper()` are modelled on their ASCII action (`Char.toLower` /
`Char.toUpper`), which agrees with Python on every ASCII string. -/

/-- Python's whitespace class for `str.strip` / `str.split`, restricted to
ASCII: space, tab, newline, carriage return, vertical tab, form feed. -/
def pyIsSpace (c : Char) : Bool :=
  c = ' ' || c = '\t' || c = '\n' || c = '\x0d' || c = '\x0b' || c = '\x0c'

/-- Python `str.strip()`: drop leading and trailing whitespace. -/
def pyStrip (s : String) : String :=
  String.mk (((s.data.dropWhile pyIsSpace).reverse.dropWhile pyIsSpace).reverse)

/-- Python `str.lower()` on ASCII text. -/
def pyLower (s : String) : String :=
  String.mk (s.data.map Char.toLower)

/-- Worker for `pySplit`: `cur` holds the characters of the word in
progress, in reverse. -/
def splitWordsAux (cur : List Char) : List Char → List String
  | [] => if cur.isEmpty then [] else [String.mk cur.reverse]
  | c :: cs =>
    if pyIsSpace c then
      if cur.isEmpty then splitWordsAux [] cs
      else String.mk cur.reverse :: splitWordsAux [] cs
    else splitWordsAux (c :: cur) cs

/-- Python `str.split()` with no argument: split on runs of whitespace,
producing no empty words. -/
def pySplit (s : String) : List String :=
  splitWordsAux [] s.data

/-- `prefixes_to_remove` (src/app/utils.py line 302). -/
def lead_in_phrases : List String :=
  ["hi", "hello", "hey", "can you", "could you", "please", "i need", "help me"]

/-- The lead-in stripping loop (src/app/utils.py lines 305-309): scan the
phrase list in order; at the first phrase whose word sequence is a leading
segment of `words`, drop that many words and stop (the loop `break`s after
one removal). -/
def stripLeadIn (words : List String) : List String → List String
  | [] => words
  | phrase :: rest =>
    let pw := pySplit phrase
    if words.take pw.length = pw then words.drop pw.length
    else stripLeadIn words rest

/-- Python `title[0].upper() + title[1:]` guarded by `if title:`
(src/app/utils.py lines 318-319), on ASCII text. -/
def capitalizeFirst (s : String) : String :=
  match s.data with
  | [] => s
  | c :: cs => String.mk (c.toUpper :: cs)

/-- Number of characters of a string (Python `len`). -/
def strLen (s : String) : Nat :=
  s.data.length

/-- Python `s[:n]`: the first `n` characters. -/
def strTake (s : String) (n : Nat) : String :=
  String.mk (s.data.take n)

/-- Python `s[-n:]` for `0 < n ≤ len(s)`: the last `n` characters. -/
def strTakeRight (s : String) (n : Nat) : String :=
  String.mk (s.data.drop (s.data.length - n))

/-- `generate_chat_title` up to the variable `title` after capitalization
(src/app/utils.py lines 301-319): strip the input, lowercase and split it,
strip one lead-in phrase, keep up to 6 words longer than 2 characters —
falling back to the first 4 words of the stripped original when none
qualify — join with single spaces and capitalize the first character. -/
def titleCore (content : String) : String :=
  let content := pyStrip content
  let words := pySplit (pyLower content)
  let words := stripLeadIn words lead_in_phrases
  let meaningful_words := (words.filter (fun w => 2 < strLen w)).take 6
  let meaningful_words :=
    if meaningful_words.isEmpty then (pySplit content).take 4 else meaningful_words
  let title := String.intercalate " " meaningful_words
  capitalizeFirst title

/-- The final line of `generate_chat_title` (src/app/utils.py line 321):
`title[:50] + ("..." if len(title) > 50 else "") or "New Chat"` truncates to
50 characters, appends `"..."` exactly when truncation dropped something, and
replaces an empty result by the fallback label `"New Chat"`. -/
def finishTitle (title : String) : String :=
  let truncated := strTake title 50 ++ (if 50 < strLen title then "..." else "")
  if truncated = "" then "New Chat" else truncated

/-- `generate_chat_title` (src/app/utils.py lines 299-321): the word
selection of `titleCore` followed by the truncate-or-fallback last line. -/
def generate_chat_title (content : String) : String :=
  finishTitle (titleCore content)

/-! ## Conversation assembly and turn ordering (`send_message`,
src/app/routes.py lines 268-326) -/

/-- One entry of the message list handed to the provider:
`{"role": ..., "content": ...}` (src/app/routes.py lines 289-294). -/
structure ChatMessage where
  role : String
  content : String
deriving DecidableEq, Repr

/-- The context-assembly fragment of `send_message` (src/app/routes.py lines
278-294): query the chat's stored messages ordered by `created_at`
descending, keep at most `maxHistory` (`MAX_CONVERSATION_HISTORY`), reverse
back to chronological order, map each row to a role/content entry, and append
the new user message last.  `history` is the chat's stored messages in
chronological order. -/
def assembleMessages (history : List ChatMessage) (newContent : String)
    (maxHistory : Nat) : List ChatMessage :=
  let recent := ((history.reverse).take maxHistory).reverse
  recent ++ [{ role := "user", content := newContent }]

/-- The database-effect events of the `try` block of `send_message`
(src/app/routes.py lines 268-326), in program order.  `addUserMessage` is
`db.add(user_message)` (line 276), `providerCall` is
`await chat_with_ai(...)` (line 299), `addAssistantMessage` is
`db.add(ai_message)` (line 308), `commitAll` is the single `db.commit()`
(line 319). -/
inductive TurnEvent where
  | addUserMessage
  | providerCall
  | addAssistantMessage
  | commitAll
deriving DecidableEq, Repr

/-- The event sequence of a successful `send_message` turn, read off the
source in program order. -/
def send_message_events : List TurnEvent :=
  [TurnEvent.addUserMessage, TurnEvent.providerCall,
   TurnEvent.addAssistantMessage, TurnEvent.commitAll]

/-- The session state of one turn: the messages durably committed to
storage and the messages pending in the open transaction. -/
structure TurnDb where
  committed : List String
  pending : List String
deriving DecidableEq, Repr

/-- Run a turn's event list over the session state.  `u` and `a` are the
contents of the user and assistant messages.  Returns the list of states
observed at the moment of each provider call, together with the final state:
`db.add` appends to the pending transaction, `db.commit` moves everything
pending into committed storage. -/
def runTurn (u a : String) : List TurnEvent → TurnDb → List TurnDb × TurnDb
  | [], s => ([], s)
  | e :: es, s =>
    match e with
    | TurnEvent.addUserMessage => runTurn u a es { s with pending := s.pending ++ [u] }
    | TurnEvent.providerCall =>
      let res := runTurn u a es s
      (s :: res.1, res.2)
    | TurnEvent.addAssistantMessage => runTurn u a es { s with pending := s.pending ++ [a] }
    | TurnEvent.commitAll => runTurn u a es { committed := s.committed ++ s.pending, pending := [] }

/-! ## Theorems: fallback orchestrator -/

/-- The fallback loop on a list that starts with failing providers followed
by a succeeding one: it returns the succeeding provider's result and attempts
exactly the failing providers and then the succeeding one, in order. -/
theorem tryProviders_first_success (attempt : ProviderName → Except String AIResult) :
    ∀ (fails : List ProviderName) (p : ProviderName) (rest : List ProviderName)
      (r : AIResult),
      (∀ q ∈ fails, isErr (attempt q) = true) → attempt p = Except.ok r →
      tryProviders attempt (fails ++ p :: rest) = (Except.ok r, fails ++ [p]) := by
  intro fails
  induction fails with
  | nil =>
    intro p rest r _ hsucc
    simp [tryProviders, hsucc]
  | cons f fs ih =>
    intro p rest r hfail hsucc
    have hf : isErr (attempt f) = true := hfail f (List.mem_cons_self f fs)
    have hfs : ∀ q ∈ fs, isErr (attempt q) = true :=
      fun q hq => hfail q (List.mem_cons_of_mem f hq)
    cases he : attempt f with
    | ok v => rw [he] at hf; simp [isErr] at hf
    | error e =>
      show tryProviders attempt (f :: (fs ++ p :: rest)) = _
      rw [tryProviders, he]
      simp [ih p rest r hfs hsucc]

/-- C1: for every configuration whose provider preference list decomposes as
N failing providers followed by a succeeding one, `chat_completion` tries the
providers strictly in preference order, attempts exactly those N + 1
providers (each once, none after the success), and returns the succeeding
provider's result. -/
theorem chat_completion_fallback_order (c : ServiceConfig)
    (attempt : ProviderName → Except String AIResult)
    (fails : List ProviderName) (p : ProviderName) (rest : List ProviderName)
    (r : AIResult)
    (hps : providersOf c = fails ++ p :: rest)
    (hfail : ∀ q ∈ fails, isErr (attempt q) = true)
    (hsucc : attempt p = Except.ok r) :
    chat_completion c attempt = (Except.ok r, fails ++ [p]) ∧
    (chat_completion c attempt).2.length = fails.length + 1 := by
  have hrun : chat_completion c attempt = tryProviders attempt (fails ++ p :: rest) := by
    unfold chat_completion
    rw [hps]
    cases fails <;> rfl
  have hres := tryProviders_first_success attempt fails p rest r hfail hsucc
  rw [hrun, hres]
  simp

/-- Concrete configuration used to witness the fallback theorems: OpenRouter
and Groq keys set, nothing else. -/
def twoProviderConfig : ServiceConfig :=
  { openai_api_key := none, openrouter_key := some "or-key", anthropic_key := none,
    groq_key := some "gq-key", together_key := none,
    use_proxy := false, force_openai := false }

/-- Concrete attempt outcomes used to witness the fallback theorems:
OpenRouter fails, Groq succeeds. -/
def twoProviderAttempt : ProviderName → Except String AIResult
  | ProviderName.openRouter => Except.error "OpenRouter API error: 403"
  | ProviderName.groq => Except.ok { content := "hello", input_tokens := 10, output_tokens := 5 }
  | ProviderName.togetherAI => Except.error "Together API key not configured"
  | ProviderName.openAI => Except.error "OpenAI API key not configured"

/-- Witness for C1: with OpenRouter failing and Groq succeeding, the
orchestrator returns Groq's result after exactly two attempts in preference
order. -/
theorem chat_completion_fallback_order_witness :
    chat_completion twoProviderConfig twoProviderAttempt =
      (Except.ok { content := "hello", input_tokens := 10, output_tokens := 5 },
       [ProviderName.openRouter] ++ [ProviderName.groq]) ∧
    (chat_completion twoProviderConfig twoProviderAttempt).2.length =
      [ProviderName.openRouter].length + 1 :=
  chat_completion_fallback_order twoProviderConfig twoProviderAttempt
    [ProviderName.openRouter] ProviderName.groq []
    { content := "hello", input_tokens := 10, output_tokens := 5 }
    (by decide) (by decide) (by rfl)

/-- C2: if the assembled provider list is empty, `chat_completion` fails
immediately with the distinct no-providers-configured error and attempts no
provider at all. -/
theorem chat_completion_no_providers (c : ServiceConfig)
    (attempt : ProviderName → Except String AIResult)
    (h : providersOf c = []) :
    chat_completion c attempt = (Except.error ChatError.noProvidersConfigured, []) := by
  unfold chat_completion
  rw [h]
  rfl

/-- A configuration with no credentials at all. -/
def emptyConfig : ServiceConfig :=
  { openai_api_key := none, openrouter_key := none, anthropic_key := none,
    groq_key := none, together_key := none, use_proxy := false, force_openai := false }

/-- Witness for C2: with no credentials configured the orchestrator answers
the no-providers error without attempting anything. -/
theorem chat_completion_no_providers_witness :
    chat_completion emptyConfig twoProviderAttempt =
      (Except.error ChatError.noProvidersConfigured, []) :=
  chat_completion_no_providers emptyConfig twoProviderAttempt (by rfl)

/-- C10: direct OpenAI joins the preference list exactly when an OpenAI key
is configured and additionally the proxy flag or the FORCE_OPENAI flag is
set; hence a deployment with only an OpenAI key and neither flag has an empty
provider list and gets the no-providers-configured error despite its valid
key. -/
theorem openai_gating (c : ServiceConfig)
    (attempt : ProviderName → Except String AIResult)
    (h1 : c.openai_api_key.isSome = true) (h2 : c.openrouter_key = none)
    (h3 : c.groq_key = none) (h4 : c.together_key = none)
    (h5 : c.use_proxy = false) (h6 : c.force_openai = false) :
    (∀ c' : ServiceConfig, ProviderName.openAI ∈ providersOf c' ↔
      (c'.openai_api_key.isSome && (c'.use_proxy || c'.force_openai)) = true) ∧
    providersOf c = [] ∧
    chat_completion c attempt = (Except.error ChatError.noProvidersConfigured, []) := by
  have hempty : providersOf c = [] := by
    simp [providersOf, h2, h3, h4, h5, h6]
  refine ⟨?_, hempty, ?_⟩
  · intro c'
    cases hor : c'.openrouter_key.isSome <;> cases hgq : c'.groq_key.isSome <;>
      cases htg : c'.together_key.isSome <;>
      cases hoa : (c'.openai_api_key.isSome && (c'.use_proxy || c'.force_openai)) <;>
      simp [providersOf, hor, hgq, htg, hoa]
  · unfold chat_completion
    rw [hempty]
    rfl

/-- A configuration holding only an OpenAI key, with proxy use disabled and
FORCE_OPENAI unset. -/
def onlyOpenAIConfig : ServiceConfig :=
  { openai_api_key := some "sk-key", openrouter_key := none, anthropic_key := none,
    groq_key := none, together_key := none, use_proxy := false, force_openai := false }

/-- Witness for C10: an OpenAI-key-only deployment with neither flag set has
no providers and fails with the no-providers error. -/
theorem openai_gating_witness :
    providersOf onlyOpenAIConfig = [] ∧
    chat_completion onlyOpenAIConfig twoProviderAttempt =
      (Except.error ChatError.noProvidersConfigured, []) :=
  (openai_gating onlyOpenAIConfig twoProviderAttempt
    (by rfl) (by rfl) (by rfl) (by rfl) (by rfl) (by rfl)).2

/-! ## Theorems: usage ledger -/

/-- C3: a successful `track_usage` call preserves the ledger invariant
`total_tokens = input_tokens + output_tokens` at every key, whether it
creates a new record or mutates an existing one, for all non-negative token
deltas: every record stored after the call satisfies the invariant provided
every record stored before it did (freshly created records satisfy it
unconditionally). -/
theorem track_usage_preserves_invariant (db : UsageDB) (uid : String) (d : Nat)
    (i o : Int) (fail : Bool)
    (hi : 0 ≤ i) (ho : 0 ≤ o)
    (hdb : ∀ k u, db k = some u → usageInv u) :
    ∀ k u, track_usage db uid d i o fail k = some u → usageInv u := by
  intro k u hu
  cases fail with
  | true => exact hdb k u hu
  | false =>
    by_cases hk : k = (uid, d)
    · have : track_usage db uid d i o false k =
        some (applyUsage (db (uid, d)) i o) := by
        simp [track_usage, track_usage_body, hk]
      rw [this] at hu
      cases hu
      cases hex : db (uid, d) with
      | none => simp [applyUsage, hex, usageInv]
      | some v =>
        have hv : usageInv v := hdb (uid, d) v hex
        simp only [applyUsage, hex, usageInv] at hv ⊢
        omega
    · have : track_usage db uid d i o false k = db k := by
        simp [track_usage, track_usage_body, hk]
      rw [this] at hu
      exact hdb k u hu

/-- Witness for C3: starting from the empty ledger and recording the deltas
(120, 45), the record stored under the key satisfies the invariant. -/
theorem track_usage_preserves_invariant_witness :
    usageInv { input_tokens := 120, output_tokens := 45,
               total_tokens := 165, message_count := 1 } :=
  track_usage_preserves_invariant (fun _ => none) "user-1" 0 120 45 false
    (by decide) (by decide) (fun k u h => by simp at h) ("user-1", 0)
    { input_tokens := 120, output_tokens := 45, total_tokens := 165, message_count := 1 }
    (by decide)

/-- C4: on an empty day the first successful `track_usage` call stores the
deltas with `message_count = 1`; each later successful call on an existing
record adds its deltas in place, keeps `total_tokens` in step, and increments
`message_count` by exactly one; concretely, recording (120, 45) then (30, 10)
on an empty day yields (120, 45, 165, 1) and then (150, 55, 205, 2). -/
theorem track_usage_accumulates (db : UsageDB) (uid : String) (d : Nat)
    (i o : Int) (hempty : db (uid, d) = none) :
    track_usage db uid d i o false (uid, d) =
      some { input_tokens := i, output_tokens := o,
             total_tokens := i + o, message_count := 1 } ∧
    (∀ (db' : UsageDB) (u : UsageRecord) (i' o' : Int), db' (uid, d) = some u →
      track_usage db' uid d i' o' false (uid, d) =
        some { input_tokens := u.input_tokens + i',
               output_tokens := u.output_tokens + o',
               total_tokens := u.total_tokens + (i' + o'),
               message_count := u.message_count + 1 }) ∧
    track_usage (track_usage db uid d 120 45 false) uid d 30 10 false (uid, d) =
      some { input_tokens := 150, output_tokens := 55,
             total_tokens := 205, message_count := 2 } := by
  have hc : ∀ (i' o' : Int), track_usage db uid d i' o' false (uid, d) =
      some { input_tokens := i', output_tokens := o',
             total_tokens := i' + o', message_count := 1 } := by
    intro i' o'
    simp [track_usage, track_usage_body, applyUsage, hempty]
  have hu : ∀ (db' : UsageDB) (u : UsageRecord) (i' o' : Int), db' (uid, d) = some u →
      track_usage db' uid d i' o' false (uid, d) =
        some { input_tokens := u.input_tokens + i',
               output_tokens := u.output_tokens + o',
               total_tokens := u.total_tokens + (i' + o'),
               message_count := u.message_count + 1 } := by
    intro db' u i' o' h
    simp [track_usage, track_usage_body, applyUsage, h]
  refine ⟨hc i o, hu, ?_⟩
  rw [hu _ _ 30 10 (hc 120 45)]
  decide

/-- Witness for C4: the concrete two-call accumulation on the empty ledger. -/
theorem track_usage_accumulates_witness :
    track_usage (fun _ => none) "user-1" 0 120 45 false ("user-1", 0) =
      some { input_tokens := 120, output_tokens := 45,
             total_tokens := 120 + 45, message_count := 1 } ∧
    track_usage (track_usage (fun _ => none) "user-1" 0 120 45 false) "user-1" 0 30 10 false
        ("user-1", 0) =
      some { input_tokens := 150, output_tokens := 55,
             total_tokens := 205, message_count := 2 } :=
  ⟨(track_usage_accumulates (fun _ => none) "user-1" 0 120 45 (by rfl)).1,
   (track_usage_accumulates (fun _ => none) "user-1" 0 120 45 (by rfl)).2.2⟩

/-- C5: `track_usage` is total — every failure of its body is caught, so the
caller always receives a ledger state, never an exception — and the update is
all-or-nothing: either the call leaves the ledger exactly unchanged (any
failing run, which rolls back), or all four counters of the key's record are
applied together and every other key is untouched. -/
theorem track_usage_suppressed_and_atomic (db : UsageDB) (uid : String) (d : Nat)
    (i o : Int) (fail : Bool) :
    (∀ e, track_usage_body db uid d i o fail = Except.error e →
      track_usage db uid d i o fail = db) ∧
    (track_usage db uid d i o fail = db ∨
      track_usage db uid d i o fail = fun k =>
        if k = (uid, d) then some (applyUsage (db (uid, d)) i o) else db k) := by
  cases fail with
  | true =>
    refine ⟨fun e _ => by simp [track_usage, track_usage_body], Or.inl ?_⟩
    simp [track_usage, track_usage_body]
  | false =>
    refine ⟨fun e he => ?_, Or.inr ?_⟩
    · simp [track_usage_body] at he
    · simp [track_usage, track_usage_body]

/-- Witness for C5: on a concrete ledger, the failing call's all-or-nothing
disjunction holds (the rollback leaves the state unchanged). -/
theorem track_usage_suppressed_and_atomic_witness :
    track_usage (fun _ => none) "user-1" 0 120 45 true = (fun _ => none) ∨
    track_usage (fun _ => none) "user-1" 0 120 45 true = fun k =>
      if k = ("user-1", 0) then
        some (applyUsage ((fun _ => none : UsageDB) ("user-1", 0)) 120 45)
      else (fun _ => none : UsageDB) k :=
  (track_usage_suppressed_and_atomic (fun _ => none) "user-1" 0 120 45 true).2

/-! ## Theorems: title generator -/

/-- C6 counterexample: on the exact input `"Hi, can you help me plan a trip
to Japan"` the first word of the lowered text is `"hi,"` (with the comma),
so no lead-in phrase matches as a leading word sequence, nothing is stripped,
and the generated title is `"Hi, can you help plan trip"` — it does not
begin with `"Plan"`. -/
theorem generate_chat_title_japan_counterexample :
    generate_chat_title "Hi, can you help me plan a trip to Japan" =
      "Hi, can you help plan trip" ∧
    strTake (generate_chat_title "Hi, can you help me plan a trip to Japan") 4 ≠
      "Plan" := by
  constructor
  · rfl
  · decide

/-- C6 (amended): the title generator applied to the exact input `"Hi, can
you help me plan a trip to Japan"` returns `"Hi, can you help plan trip"`,
which begins with `"Hi,"`: the trailing comma keeps the greeting from
matching the lead-in list, so nothing is stripped and only the
longer-than-two-characters word filter shortens the text. -/
theorem generate_chat_title_japan :
    generate_chat_title "Hi, can you help me plan a trip to Japan" =
      "Hi, can you help plan trip" ∧
    strTake (generate_chat_title "Hi, can you help me plan a trip to Japan") 3 =
      "Hi," :=
  ⟨rfl, rfl⟩

/-- The characters of the string literal `"..."`. -/
theorem dots_data : ("..." : String).data = ['.', '.', '.'] := rfl

/-- The truncate-or-fallback step alone already guarantees a non-empty
result of at most 50 characters, or exactly 53 characters ending in the
ellipsis marker when truncation occurred. -/
theorem finishTitle_props (T : String) :
    finishTitle T ≠ "" ∧
    (strLen (finishTitle T) ≤ 50 ∨
      (strLen (finishTitle T) = 53 ∧ strTakeRight (finishTitle T) 3 = "...")) := by
  by_cases h50 : 50 < strLen T
  · have hdata : (strTake T 50 ++ ("..." : String)).data =
        T.data.take 50 ++ ['.', '.', '.'] := by
      rw [String.data_append, dots_data]
      rfl
    have hlen50 : (T.data.take 50).length = 50 := by
      rw [List.length_take]
      have : 50 < T.data.length := h50
      omega
    have hne : strTake T 50 ++ ("..." : String) ≠ "" := by
      intro h
      have hd := congrArg String.data h
      rw [hdata] at hd
      simp at hd
    have hfin : finishTitle T = strTake T 50 ++ ("..." : String) := by
      simp [finishTitle, h50, hne]
    have hlen : strLen (finishTitle T) = 53 := by
      rw [hfin]
      simp [strLen, hdata, hlen50]
    refine ⟨by rw [hfin]; exact hne, Or.inr ⟨hlen, ?_⟩⟩
    have hdrop : (T.data.take 50 ++ ['.', '.', '.']).drop 50 = ['.', '.', '.'] := by
      have hd := List.drop_left (T.data.take 50) ['.', '.', '.']
      rwa [hlen50] at hd
    have hlist : (T.data.take 50 ++ ['.', '.', '.']).length = 53 := by
      rw [List.length_append, hlen50]
      rfl
    rw [hfin]
    unfold strTakeRight
    rw [hdata, hlist]
    rw [show (53 - 3 : Nat) = 50 from rfl]
    rw [hdrop]
  · have happ : strTake T 50 ++ ("" : String) = strTake T 50 := by
      apply String.ext
      rw [String.data_append]
      simp [strTake]
    have hfin : finishTitle T =
        if strTake T 50 = "" then "New Chat" else strTake T 50 := by
      simp [finishTitle, h50, happ]
    by_cases he : strTake T 50 = ""
    · rw [hfin, if_pos he]
      exact ⟨by decide, Or.inl (by decide)⟩
    · rw [hfin, if_neg he]
      refine ⟨he, Or.inl ?_⟩
      simp only [strLen, strTake, List.length_take]
      omega

/-- C7: the title generator is total: for every input it returns a non-empty
string that is either at most 50 characters long or exactly 53 characters
ending in the ellipsis marker `"..."`; and on every input consisting only of
whitespace (the empty string included) it returns the fixed fallback label
`"New Chat"`. -/
theorem generate_chat_title_total (s : String) :
    generate_chat_title s ≠ "" ∧
    (strLen (generate_chat_title s) ≤ 50 ∨
      (strLen (generate_chat_title s) = 53 ∧
        strTakeRight (generate_chat_title s) 3 = "...")) ∧
    ((∀ c ∈ s.data, pyIsSpace c = true) → generate_chat_title s = "New Chat") := by
  refine ⟨(finishTitle_props (titleCore s)).1, (finishTitle_props (titleCore s)).2, ?_⟩
  intro hws
  have hstrip : pyStrip s = "" := by
    have h1 : s.data.dropWhile pyIsSpace = [] := List.dropWhile_eq_nil_iff.mpr hws
    simp [pyStrip, h1]
  unfold generate_chat_title titleCore
  rw [hstrip]
  rfl

/-- Witness for C7: the empty input yields the fallback label, which is not
empty. -/
theorem generate_chat_title_total_witness :
    generate_chat_title "" = "New Chat" ∧ generate_chat_title "" ≠ "" :=
  ⟨(generate_chat_title_total "").2.2 (by decide), (generate_chat_title_total "").1⟩

/-! ## Theorems: conversation assembly and turn ordering -/

/-- C8 counterexample: the message list `send_message` assembles for an
empty history and the new message `"hello"` is just the single user entry —
its first element is the user message, not a system prompt, so the assembled
list does not consist of a system prompt followed by history and the new
message. -/
theorem assembleMessages_no_system_prompt :
    assembleMessages [] "hello" 50 = [{ role := "user", content := "hello" }] ∧
    (assembleMessages [] "hello" 50).map ChatMessage.role = ["user"] ∧
    ("user" : String) ≠ "system" := by
  refine ⟨by decide, by decide, by decide⟩

/-- C8 (amended): for every stored history and new message, the assembled
list is exactly the `maxHistory` most recent stored messages in chronological
order (the history truncated from the front, keeping the tail) followed by
the new user message last — no system prompt is prepended — so it has
exactly `min maxHistory history.length + 1` entries and never more than
`maxHistory + 1`. -/
theorem assembleMessages_spec (history : List ChatMessage) (newContent : String)
    (maxHistory : Nat) :
    assembleMessages history newContent maxHistory =
      history.drop (history.length - maxHistory) ++
        [{ role := "user", content := newContent }] ∧
    (assembleMessages history newContent maxHistory).length =
      min maxHistory history.length + 1 ∧
    (assembleMessages history newContent maxHistory).length ≤ maxHistory + 1 := by
  have h1 : ((history.reverse).take maxHistory).reverse =
      history.drop (history.length - maxHistory) := by
    rw [List.take_reverse, List.reverse_reverse]
  refine ⟨?_, ?_, ?_⟩
  · unfold assembleMessages
    rw [h1]
  · unfold assembleMessages
    simp [List.length_take]
  · unfold assembleMessages
    simp [List.length_take]

/-- C9 counterexample: running the event sequence of `send_message` from an
empty session, the session state observed at the (unique) provider call has
an empty durable store — the user message `"hello"` is only pending in the
open transaction, so it is not true that the user message is committed before
the provider is called. -/
theorem send_message_no_commit_before_provider :
    (runTurn "hello" "reply" send_message_events
        { committed := [], pending := [] }).1 =
      [{ committed := [], pending := ["hello"] }] ∧
    ((runTurn "hello" "reply" send_message_events
        { committed := [], pending := [] }).1.map TurnDb.committed) = [[]] ∧
    "hello" ∉ ([] : List String) := by
  refine ⟨by decide, by decide, by decide⟩

/-- C9 (amended): within a single turn the user message is added to the open
transaction before the provider call but is durably committed only by the
single commit at the end of the turn, together with the assistant message:
the state observed at the provider call still has the initial durable store
with the user message merely pending, and the final state commits the user
and assistant messages together, in order. -/
theorem send_message_ordering (u a : String) (s0 : TurnDb) :
    (runTurn u a send_message_events s0).1 =
      [{ committed := s0.committed, pending := s0.pending ++ [u] }] ∧
    (runTurn u a send_message_events s0).2 =
      { committed := s0.committed ++ (s0.pending ++ [u] ++ [a]), pending := [] } := by
  simp [runTurn, send_message_events]
